import Mathlib

/-!
Shallow embedding of `src/hwdog.c` (hardware watchdog on an ATtiny13).

The program is a single infinite control loop (function `main`, lines 119-159):
every iteration sleeps one tick period (`_delay_ms(100)`), then

  * if `activity_flag` (set asynchronously by `ISR(PCINT0_vect)`) is true:
    clear it, zero `timeout_counter`, arm the activity LED
    (`activity_led_count = ACTIVITY_LED_MS / TICK_MS`, and drive PB3 high);
  * `else if (timeout_counter ++ >= TIMEOUT_TICKS)`: note the POST-increment —
    the comparison uses the PRE-increment value; on fire the code flashes the
    activity LED (macro `FLASH`, whose net state effect is PORTB.PB3 = 0 and
    DDRB.PB3 = 0), turns on the timeout LED, drives the reset line
    (`DDRB |= _BV(PIN_RSTO)`), waits 500 ms, releases it back to tri-state
    (`DDRB &= ~_BV(PIN_RSTO)`), arms the timeout LED counter and zeroes
    `timeout_counter`;
  * then, unconditionally, each LED countdown with a positive value is
    decremented and its LED is turned off exactly when the decrement reaches 0.

Machine integers: `timeout_counter` is `uint32_t` (arithmetic mod 2^32);
the LED counters are `uint8_t` (the stored constants 151 and 2 fit in 8 bits,
and a decrement guarded by `> 0` never wraps). I/O bits of PORTB/DDRB used by
the program are modelled as one Bool per bit. The reset line's transient
assert/release inside the fire branch is recorded in an event trace.
-/

namespace Hwdog

/-- modulus of `uint32_t` arithmetic -/
def UINT32_MOD : Nat := 2 ^ 32

/-- modulus of `uint8_t` arithmetic -/
def UINT8_MOD : Nat := 2 ^ 8

/-- `#define TICK_MS 100` -/
def TICK_MS : Nat := 100

/-- `#define TIMEOUT_MINUTES 3` -/
def TIMEOUT_MINUTES : Nat := 3

/-- `#define TIMEOUT_TICKS ((uint32_t)TIMEOUT_MINUTES * (uint32_t)60 * (uint32_t)1000 / (uint32_t)TICK_MS)` —
each operation performed in `uint32_t`, i.e. mod 2^32, left to right. -/
def TIMEOUT_TICKS : Nat :=
  (TIMEOUT_MINUTES * 60 % UINT32_MOD * 1000 % UINT32_MOD) / TICK_MS % UINT32_MOD

/-- `#define TIMEOUT_LED_MS 15100u` -/
def TIMEOUT_LED_MS : Nat := 15100

/-- `#define ACTIVITY_LED_MS 200u` -/
def ACTIVITY_LED_MS : Nat := 200

/-- value stored by `timeout_led_count = (TIMEOUT_LED_MS / TICK_MS);` into a `uint8_t` -/
def TIMEOUT_LED_TICKS : Nat := TIMEOUT_LED_MS / TICK_MS % UINT8_MOD

/-- value stored by `activity_led_count = (ACTIVITY_LED_MS / TICK_MS);` into a `uint8_t` -/
def ACTIVITY_LED_TICKS : Nat := ACTIVITY_LED_MS / TICK_MS % UINT8_MOD

/-- observable actions on the reset output line PB1 (`PIN_RSTO`):
`assert` = `DDRB |= _BV(PIN_RSTO)` (drive the line), `delayMs n` =
`_delay_ms(n)`, `deassert` = `DDRB &= ~_BV(PIN_RSTO)` (back to tri-state). -/
inductive RstoEvent where
  | assert
  | delayMs (ms : Nat)
  | deassert
deriving DecidableEq, Repr

/-- the program state at the top of a loop iteration: the globals of
`hwdog.c` plus the PORTB/DDRB bits the program touches. -/
structure WState where
  /-- `volatile bool activity_flag` -/
  activity_flag : Bool
  /-- `uint32_t timeout_counter` (value < 2^32) -/
  timeout_counter : Nat
  /-- `uint8_t timeout_led_count` -/
  timeout_led_count : Nat
  /-- `uint8_t activity_led_count` -/
  activity_led_count : Nat
  /-- PORTB bit `LED_ACTV` (PB3) -/
  portb_actv : Bool
  /-- DDRB bit `LED_ACTV` (PB3) -/
  ddrb_actv : Bool
  /-- PORTB bit `LED_TIME` (PB0) -/
  portb_time : Bool
  /-- DDRB bit `LED_TIME` (PB0) -/
  ddrb_time : Bool
  /-- DDRB bit `PIN_RSTO` (PB1): true iff the reset line is being driven -/
  ddrb_rsto : Bool
deriving DecidableEq, Repr

/-- the Timeout Engine part of one loop iteration, `hwdog.c` lines 123-144:
the `if (activity_flag) ... else if (timeout_counter ++ >= TIMEOUT_TICKS) ...`
ladder. `T` stands for `TIMEOUT_TICKS` (kept as a parameter so that the spec's
small-threshold scenarios are instances of the same code). Each branch is
written as its net effect on the state:

  * activity branch (lines 123-130): `activity_flag = false; timeout_counter = 0;
    activity_led_count = ACTIVITY_LED_MS / TICK_MS; DDRB |= _BV(LED_ACTV);
    PORTB |= _BV(LED_ACTV);`
  * fire branch (lines 131-144), taken when the pre-increment counter is
    `>= T`: the counter is post-incremented and later overwritten with 0 (net
    effect 0); `FLASH_TEST(PB3)` blinks PB3 four times and leaves
    `PORTB.PB3 = 0, DDRB.PB3 = 0`; `PORTB |= _BV(LED_TIME); DDRB |= _BV(LED_TIME);`
    then `DDRB |= _BV(PIN_RSTO); _delay_ms(500); DDRB &= ~_BV(PIN_RSTO);`
    (net `ddrb_rsto = false`, the transient recorded in the event trace);
    `timeout_led_count = TIMEOUT_LED_MS / TICK_MS; timeout_counter = 0;`
  * otherwise the post-increment leaves `timeout_counter + 1` (mod 2^32). -/
def engineStep (T : Nat) (s : WState) : WState × List RstoEvent :=
  if s.activity_flag then
    ({ s with activity_flag := false
            , timeout_counter := 0
            , activity_led_count := ACTIVITY_LED_TICKS
            , ddrb_actv := true
            , portb_actv := true }, [])
  else if s.timeout_counter ≥ T then
    ({ s with timeout_counter := 0
            , portb_actv := false
            , ddrb_actv := false
            , portb_time := true
            , ddrb_time := true
            , ddrb_rsto := false
            , timeout_led_count := TIMEOUT_LED_TICKS },
     [RstoEvent.assert, RstoEvent.delayMs 500, RstoEvent.deassert])
  else
    ({ s with timeout_counter := (s.timeout_counter + 1) % UINT32_MOD }, [])

/-- first indicator-timer block of one loop iteration, `hwdog.c` lines 145-151:

    if (timeout_led_count > 0) { timeout_led_count --;
      if (!timeout_led_count) { PORTB &= ~_BV(LED_TIME); } } -/
def timeoutLedPhase (s : WState) : WState :=
  if 0 < s.timeout_led_count then
    { s with timeout_led_count := s.timeout_led_count - 1
           , portb_time := if s.timeout_led_count - 1 = 0 then false
                           else s.portb_time }
  else s

/-- second indicator-timer block of one loop iteration, `hwdog.c` lines 152-158:

    if (activity_led_count > 0) { activity_led_count --;
      if (!activity_led_count) { PORTB &= ~_BV(LED_ACTV); } } -/
def activityLedPhase (s : WState) : WState :=
  if 0 < s.activity_led_count then
    { s with activity_led_count := s.activity_led_count - 1
           , portb_actv := if s.activity_led_count - 1 = 0 then false
                           else s.portb_actv }
  else s

/-- the indicator-timer part of one loop iteration, lines 145-158: both
blocks in program order. -/
def indicatorPhase (s : WState) : WState :=
  activityLedPhase (timeoutLedPhase s)

/-- one full iteration of the `while (1)` loop. `a` records whether the pin
change interrupt `ISR(PCINT0_vect)` (which does `activity_flag = true;`) fired
at least once during the `_delay_ms(100)` tick sleep. -/
def tick (T : Nat) (a : Bool) (s : WState) : WState × List RstoEvent :=
  (indicatorPhase (engineStep T { s with activity_flag := s.activity_flag || a }).1,
   (engineStep T { s with activity_flag := s.activity_flag || a }).2)

/-- iterate the loop over a list of per-tick activity inputs, concatenating
the reset-line event traces. -/
def run (T : Nat) : List Bool → WState → WState × List RstoEvent
  | [], s => (s, [])
  | a :: as, s =>
    ((run T as (tick T a s).1).1, (tick T a s).2 ++ (run T as (tick T a s).1).2)

/-- state at the top of the first loop iteration, after the power-on code of
`main` (lines 105-117): both LED DDRB bits enabled and both PORTB bits turned
on for 3 s then off again; counters zero; the ports are tri-state on POR so
`ddrb_rsto = false`; `activity_flag` starts false. -/
def initState : WState :=
  { activity_flag := false
  , timeout_counter := 0
  , timeout_led_count := 0
  , activity_led_count := 0
  , portb_actv := false
  , ddrb_actv := true
  , portb_time := false
  , ddrb_time := true
  , ddrb_rsto := false }

/-- number of reset pulses begun in a trace. -/
def pulseCount (evs : List RstoEvent) : Nat :=
  evs.countP (fun e => e == RstoEvent.assert)

/-- a trace is a sequence of complete, non-overlapping 500 ms pulses: every
drive of the reset line is immediately followed by the 500 ms delay and the
release back to tri-state. -/
def wellFormedPulses : List RstoEvent → Bool
  | [] => true
  | RstoEvent.assert :: RstoEvent.delayMs ms :: RstoEvent.deassert :: rest =>
      ms == 500 && wellFormedPulses rest
  | _ => false

/-- fine-grained interleaving model of the flag consumption at `hwdog.c`
lines 123-125. On AVR, `if (activity_flag) { activity_flag = false; ... }`
compiles to a load of `activity_flag` followed (on the true path) by a store
of 0, with interrupts enabled — there is no `cli`/`sei` around the pair.
`isrBetween` records whether `ISR(PCINT0_vect)` (`activity_flag = true;`)
fires between that load and the point where the store happens (or would have
happened). Apart from the split access the branches are those of
`engineStep`. -/
def engineStepRace (T : Nat) (isrBetween : Bool) (s : WState) :
    WState × List RstoEvent :=
  let r := s.activity_flag
  let s0 := if isrBetween then { s with activity_flag := true } else s
  if r then
    ({ s0 with activity_flag := false
             , timeout_counter := 0
             , activity_led_count := ACTIVITY_LED_TICKS
             , ddrb_actv := true
             , portb_actv := true }, [])
  else if s0.timeout_counter ≥ T then
    ({ s0 with timeout_counter := 0
             , portb_actv := false
             , ddrb_actv := false
             , portb_time := true
             , ddrb_time := true
             , ddrb_rsto := false
             , timeout_led_count := TIMEOUT_LED_TICKS },
     [RstoEvent.assert, RstoEvent.delayMs 500, RstoEvent.deassert])
  else
    ({ s0 with timeout_counter := (s0.timeout_counter + 1) % UINT32_MOD }, [])

/-- Modelled from the spec: the consumption of `ActivityFlag` that §5 of the
specification requires — "a single indivisible read-then-clear (disable the
asynchronous trigger or otherwise make the pair atomic)". Missing from the
code: `hwdog.c` has no `cli`/`sei` (or other critical section) around the
read and the clear. With the trigger disabled, an interrupt arriving during
the consumption is deferred until after it, so its set of the flag survives
and is observed on a subsequent tick. -/
def engineStepAtomicSpec (T : Nat) (isrDuring : Bool) (s : WState) :
    WState × List RstoEvent :=
  let r := engineStep T s
  ((if isrDuring then { r.1 with activity_flag := true } else r.1), r.2)

/-! Helper lemmas about the embedding. -/

/-- the first indicator block touches only the timeout LED counter and its
PORTB bit. -/
lemma timeoutLedPhase_frame (s : WState) :
    (timeoutLedPhase s).activity_flag = s.activity_flag ∧
    (timeoutLedPhase s).timeout_counter = s.timeout_counter ∧
    (timeoutLedPhase s).activity_led_count = s.activity_led_count ∧
    (timeoutLedPhase s).portb_actv = s.portb_actv ∧
    (timeoutLedPhase s).ddrb_actv = s.ddrb_actv ∧
    (timeoutLedPhase s).ddrb_time = s.ddrb_time ∧
    (timeoutLedPhase s).ddrb_rsto = s.ddrb_rsto := by
  unfold timeoutLedPhase
  split <;> simp

/-- the second indicator block touches only the activity LED counter and its
PORTB bit. -/
lemma activityLedPhase_frame (s : WState) :
    (activityLedPhase s).activity_flag = s.activity_flag ∧
    (activityLedPhase s).timeout_counter = s.timeout_counter ∧
    (activityLedPhase s).timeout_led_count = s.timeout_led_count ∧
    (activityLedPhase s).portb_time = s.portb_time ∧
    (activityLedPhase s).ddrb_actv = s.ddrb_actv ∧
    (activityLedPhase s).ddrb_time = s.ddrb_time ∧
    (activityLedPhase s).ddrb_rsto = s.ddrb_rsto := by
  unfold activityLedPhase
  split <;> simp

/-- the indicator phase touches only the two LED counters and their PORTB
bits; every other field is untouched. -/
lemma indicatorPhase_frame (s : WState) :
    (indicatorPhase s).activity_flag = s.activity_flag ∧
    (indicatorPhase s).timeout_counter = s.timeout_counter ∧
    (indicatorPhase s).ddrb_actv = s.ddrb_actv ∧
    (indicatorPhase s).ddrb_time = s.ddrb_time ∧
    (indicatorPhase s).ddrb_rsto = s.ddrb_rsto := by
  unfold indicatorPhase
  refine ⟨?_, ?_, ?_, ?_, ?_⟩ <;>
    simp [(activityLedPhase_frame _).1, (activityLedPhase_frame _).2.1,
      (activityLedPhase_frame _).2.2.2.2.1, (activityLedPhase_frame _).2.2.2.2.2.1,
      (activityLedPhase_frame _).2.2.2.2.2.2,
      (timeoutLedPhase_frame _).1, (timeoutLedPhase_frame _).2.1,
      (timeoutLedPhase_frame _).2.2.2.2.1, (timeoutLedPhase_frame _).2.2.2.2.2.1,
      (timeoutLedPhase_frame _).2.2.2.2.2.2]

lemma engineStep_activity (T : Nat) (s : WState) (h : s.activity_flag = true) :
    engineStep T s =
      ({ s with activity_flag := false
              , timeout_counter := 0
              , activity_led_count := ACTIVITY_LED_TICKS
              , ddrb_actv := true
              , portb_actv := true }, []) := by
  simp [engineStep, h]

lemma engineStep_fire (T : Nat) (s : WState) (hf : s.activity_flag = false)
    (h : T ≤ s.timeout_counter) :
    engineStep T s =
      ({ s with timeout_counter := 0
              , portb_actv := false
              , ddrb_actv := false
              , portb_time := true
              , ddrb_time := true
              , ddrb_rsto := false
              , timeout_led_count := TIMEOUT_LED_TICKS },
       [RstoEvent.assert, RstoEvent.delayMs 500, RstoEvent.deassert]) := by
  simp [engineStep, hf, h]

lemma engineStep_idle (T : Nat) (s : WState) (hf : s.activity_flag = false)
    (h : s.timeout_counter < T) :
    engineStep T s =
      ({ s with timeout_counter := (s.timeout_counter + 1) % UINT32_MOD }, []) := by
  simp [engineStep, hf, not_le.mpr h]

/-- the engine phase leaves the flag false whenever its input flag, after
merging the tick's interrupt input, is consumed or clear. -/
lemma engineStep_flag (T : Nat) (s : WState) :
    (engineStep T s).1.activity_flag = false ∨
    (engineStep T s).1.activity_flag = s.activity_flag := by
  unfold engineStep
  split
  · simp
  · split <;> simp

/-- after any full loop iteration the flag is false: it is either consumed by
the activity branch or was false to begin with. -/
lemma tick_flag (T : Nat) (a : Bool) (s : WState) :
    (tick T a s).1.activity_flag = false := by
  unfold tick
  dsimp only
  rw [(indicatorPhase_frame _).1]
  rcases h : (s.activity_flag || a) with _ | _
  · rcases engineStep_flag T { s with activity_flag := s.activity_flag || a } with h2 | h2 <;>
      rw [h] at h2 <;> simpa using h2
  · rw [engineStep_activity _ _ (by simp [h])]

/-- a tick whose merged flag is set takes the activity branch. -/
lemma tick_activity_eq (T : Nat) (a : Bool) (s : WState)
    (h : (s.activity_flag || a) = true) :
    tick T a s =
      (indicatorPhase
        { s with activity_flag := false
               , timeout_counter := 0
               , activity_led_count := ACTIVITY_LED_TICKS
               , ddrb_actv := true
               , portb_actv := true }, []) := by
  unfold tick
  rw [engineStep_activity _ _ (by simp [h])]

/-- a tick with no activity and counter at or above the threshold takes the
fire branch. -/
lemma tick_fire_eq (T : Nat) (a : Bool) (s : WState)
    (hf : (s.activity_flag || a) = false) (h : T ≤ s.timeout_counter) :
    tick T a s =
      (indicatorPhase
        { s with activity_flag := false
               , timeout_counter := 0
               , portb_actv := false
               , ddrb_actv := false
               , portb_time := true
               , ddrb_time := true
               , ddrb_rsto := false
               , timeout_led_count := TIMEOUT_LED_TICKS },
       [RstoEvent.assert, RstoEvent.delayMs 500, RstoEvent.deassert]) := by
  unfold tick
  rw [engineStep_fire T { s with activity_flag := s.activity_flag || a }
    (by simpa using hf) (by simpa using h)]
  simp [hf]

/-- a tick with no activity and counter below the threshold just increments
the counter. -/
lemma tick_idle_eq (T : Nat) (a : Bool) (s : WState)
    (hf : (s.activity_flag || a) = false) (h : s.timeout_counter < T) :
    tick T a s =
      (indicatorPhase
        { s with activity_flag := false
               , timeout_counter := (s.timeout_counter + 1) % UINT32_MOD }, []) := by
  unfold tick
  rw [engineStep_idle T { s with activity_flag := s.activity_flag || a }
    (by simpa using hf) (by simpa using h)]
  simp [hf]

/-- the counter never exceeds the threshold across a tick. -/
lemma tick_counter_le (T : Nat) (a : Bool) (s : WState)
    (_h : s.timeout_counter ≤ T) : (tick T a s).1.timeout_counter ≤ T := by
  rcases hb : (s.activity_flag || a) with _ | _
  · rcases le_or_lt T s.timeout_counter with hge | hlt
    · rw [tick_fire_eq T a s hb hge]
      rw [(indicatorPhase_frame _).2.1]
      exact Nat.zero_le T
    · rw [tick_idle_eq T a s hb hlt]
      rw [(indicatorPhase_frame _).2.1]
      exact le_trans (Nat.mod_le _ _) (Nat.succ_le_of_lt hlt)
  · rw [tick_activity_eq T a s hb]
    rw [(indicatorPhase_frame _).2.1]
    exact Nat.zero_le T

/-- the counter bound is an invariant of whole runs. -/
lemma run_counter_le (T : Nat) (as : List Bool) (s : WState)
    (h : s.timeout_counter ≤ T) : (run T as s).1.timeout_counter ≤ T := by
  induction as generalizing s with
  | nil => exact h
  | cons a as ih => exact ih _ (tick_counter_le T a s h)

/-- the cleared flag is an invariant of whole runs. -/
lemma run_flag (T : Nat) (as : List Bool) (s : WState)
    (h : s.activity_flag = false) : (run T as s).1.activity_flag = false := by
  induction as generalizing s with
  | nil => exact h
  | cons a as ih => exact ih _ (tick_flag T a s)

lemma pulseCount_append (l1 l2 : List RstoEvent) :
    pulseCount (l1 ++ l2) = pulseCount l1 + pulseCount l2 :=
  List.countP_append _ _ _

lemma pulseCount_pulse :
    pulseCount [RstoEvent.assert, RstoEvent.delayMs 500, RstoEvent.deassert] = 1 := by
  decide

/-- closed form of an all-idle run: starting below the threshold with the flag
clear, after `n` silent ticks the counter is the residue of `c + n` modulo
`T + 1` and the number of fired pulses is its quotient (the engine fires on
every `T + 1`st idle tick, since the post-increment comparison lets the
counter reach `T` before firing). -/
lemma idle_run (T : Nat) (hT : T < UINT32_MOD) :
    ∀ (n : Nat) (s : WState), s.activity_flag = false → s.timeout_counter ≤ T →
      (run T (List.replicate n false) s).1.activity_flag = false ∧
      (run T (List.replicate n false) s).1.timeout_counter
        = (s.timeout_counter + n) % (T + 1) ∧
      pulseCount (run T (List.replicate n false) s).2
        = (s.timeout_counter + n) / (T + 1) := by
  intro n
  induction n with
  | zero =>
    intro s hf hc
    refine ⟨hf, ?_, ?_⟩
    · simpa using (Nat.mod_eq_of_lt (Nat.lt_succ_of_le hc)).symm
    · simpa using (Nat.div_eq_of_lt (Nat.lt_succ_of_le hc)).symm
  | succ n ih =>
    intro s hf hc
    rw [List.replicate_succ]
    have hb : (s.activity_flag || false) = false := by simp [hf]
    rcases le_or_lt T s.timeout_counter with hge | hlt
    · have hcT : s.timeout_counter = T := le_antisymm hc hge
      have hstep := tick_fire_eq T false s hb hge
      have hflag' : (tick T false s).1.activity_flag = false := tick_flag T false s
      have hcnt' : (tick T false s).1.timeout_counter = 0 := by
        rw [hstep, (indicatorPhase_frame _).2.1]
      obtain ⟨ih1, ih2, ih3⟩ := ih (tick T false s).1 hflag'
        (hcnt' ▸ Nat.zero_le T)
      refine ⟨?_, ?_, ?_⟩
      · exact ih1
      · rw [show run T (false :: List.replicate n false) s
              = ((run T (List.replicate n false) (tick T false s).1).1,
                 (tick T false s).2
                   ++ (run T (List.replicate n false) (tick T false s).1).2) from rfl]
        rw [ih2, hcnt', hcT]
        have h1 : T + (n + 1) = (T + 1) + n := by omega
        rw [h1, Nat.add_mod_left]
        simp only [Nat.zero_add]
      · rw [show run T (false :: List.replicate n false) s
              = ((run T (List.replicate n false) (tick T false s).1).1,
                 (tick T false s).2
                   ++ (run T (List.replicate n false) (tick T false s).1).2) from rfl]
        rw [pulseCount_append, ih3, hcnt', hcT]
        rw [hstep]
        rw [pulseCount_pulse]
        have h1 : T + (n + 1) = n + (T + 1) := by omega
        rw [h1, Nat.add_div_right _ (Nat.succ_pos T)]
        simp only [Nat.zero_add, Nat.succ_eq_add_one]
        omega
    · have hstep := tick_idle_eq T false s hb hlt
      have hflag' : (tick T false s).1.activity_flag = false := tick_flag T false s
      have hmod : (s.timeout_counter + 1) % UINT32_MOD = s.timeout_counter + 1 :=
        Nat.mod_eq_of_lt (lt_of_le_of_lt (Nat.succ_le_of_lt hlt) hT)
      have hcnt' : (tick T false s).1.timeout_counter = s.timeout_counter + 1 := by
        rw [hstep, (indicatorPhase_frame _).2.1]
        exact hmod
      obtain ⟨ih1, ih2, ih3⟩ := ih (tick T false s).1 hflag'
        (by rw [hcnt']; exact Nat.succ_le_of_lt hlt)
      refine ⟨?_, ?_, ?_⟩
      · exact ih1
      · rw [show run T (false :: List.replicate n false) s
              = ((run T (List.replicate n false) (tick T false s).1).1,
                 (tick T false s).2
                   ++ (run T (List.replicate n false) (tick T false s).1).2) from rfl]
        rw [ih2, hcnt']
        congr 1
        omega
      · rw [show run T (false :: List.replicate n false) s
              = ((run T (List.replicate n false) (tick T false s).1).1,
                 (tick T false s).2
                   ++ (run T (List.replicate n false) (tick T false s).1).2) from rfl]
        rw [pulseCount_append, ih3, hcnt', hstep]
        simp [pulseCount]
        congr 1
        omega

/-- the timeout LED countdown always ends the phase one below its start
(truncated at zero: a zero count is left alone). -/
lemma timeoutLedPhase_count (s : WState) :
    (timeoutLedPhase s).timeout_led_count = s.timeout_led_count - 1 := by
  unfold timeoutLedPhase
  split
  · rfl
  · omega

/-- the timeout LED is turned off exactly on the phase that takes its count
from 1 to 0. -/
lemma timeoutLedPhase_off (s : WState) (h : s.timeout_led_count = 1) :
    (timeoutLedPhase s).portb_time = false := by
  unfold timeoutLedPhase
  rw [if_pos (by omega)]
  simp [h]

/-- on any other phase the timeout LED output bit is untouched. -/
lemma timeoutLedPhase_keep (s : WState) (h : s.timeout_led_count ≠ 1) :
    (timeoutLedPhase s).portb_time = s.portb_time := by
  unfold timeoutLedPhase
  split
  · simp only
    rw [if_neg (by omega)]
  · rfl

/-- the activity LED countdown always ends the phase one below its start
(truncated at zero: a zero count is left alone). -/
lemma activityLedPhase_count (s : WState) :
    (activityLedPhase s).activity_led_count = s.activity_led_count - 1 := by
  unfold activityLedPhase
  split
  · rfl
  · omega

/-- the activity LED is turned off exactly on the phase that takes its count
from 1 to 0. -/
lemma activityLedPhase_off (s : WState) (h : s.activity_led_count = 1) :
    (activityLedPhase s).portb_actv = false := by
  unfold activityLedPhase
  rw [if_pos (by omega)]
  simp [h]

/-- on any other phase the activity LED output bit is untouched. -/
lemma activityLedPhase_keep (s : WState) (h : s.activity_led_count ≠ 1) :
    (activityLedPhase s).portb_actv = s.portb_actv := by
  unfold activityLedPhase
  split
  · simp only
    rw [if_neg (by omega)]
  · rfl

/-- each loop iteration emits either no reset-line events or exactly one
complete 500 ms pulse. -/
lemma tick_trace (T : Nat) (a : Bool) (s : WState) :
    (tick T a s).2 = [] ∨
    (tick T a s).2 = [RstoEvent.assert, RstoEvent.delayMs 500, RstoEvent.deassert] := by
  rcases hb : (s.activity_flag || a) with _ | _
  · rcases le_or_lt T s.timeout_counter with hge | hlt
    · right
      rw [tick_fire_eq T a s hb hge]
    · left
      rw [tick_idle_eq T a s hb hlt]
  · left
    rw [tick_activity_eq T a s hb]

lemma wellFormedPulses_cons_pulse (l : List RstoEvent)
    (h : wellFormedPulses l = true) :
    wellFormedPulses
      ([RstoEvent.assert, RstoEvent.delayMs 500, RstoEvent.deassert] ++ l) = true := by
  simpa [wellFormedPulses] using h

/-- every trace of the control loop is a sequence of complete,
non-overlapping 500 ms pulses. -/
lemma run_wellFormed (T : Nat) (as : List Bool) (s : WState) :
    wellFormedPulses (run T as s).2 = true := by
  induction as generalizing s with
  | nil => rfl
  | cons a as ih =>
    rw [show (run T (a :: as) s).2
          = (tick T a s).2 ++ (run T as (tick T a s).1).2 from rfl]
    rcases tick_trace T a s with h | h
    · rw [h]
      simpa using ih (tick T a s).1
    · rw [h]
      exact wellFormedPulses_cons_pulse _ (ih (tick T a s).1)

/-- the reset line is back to tri-state by the end of every iteration. -/
lemma tick_rsto (T : Nat) (a : Bool) (s : WState) (h : s.ddrb_rsto = false) :
    (tick T a s).1.ddrb_rsto = false := by
  rcases hb : (s.activity_flag || a) with _ | _
  · rcases le_or_lt T s.timeout_counter with hge | hlt
    · rw [tick_fire_eq T a s hb hge, (indicatorPhase_frame _).2.2.2.2]
    · rw [tick_idle_eq T a s hb hlt, (indicatorPhase_frame _).2.2.2.2]
      exact h
  · rw [tick_activity_eq T a s hb, (indicatorPhase_frame _).2.2.2.2]
    exact h

/-- the reset line is tri-state at every reachable loop boundary. -/
lemma run_rsto (T : Nat) (as : List Bool) (s : WState) (h : s.ddrb_rsto = false) :
    (run T as s).1.ddrb_rsto = false := by
  induction as generalizing s with
  | nil => exact h
  | cons a as ih => exact ih _ (tick_rsto T a s h)

/-! Claim theorems. -/

/-- Claim C1, counterexample. The claim says the engine fires exactly when the
post-increment counter value is ≥ the threshold, so that with threshold 3 and
no activity ever the first reset fires exactly on tick 3. In the code the
comparison `timeout_counter ++ >= TIMEOUT_TICKS` uses the pre-increment value:
after two idle ticks from power-up the counter is 2, so on tick 3 the
post-increment value is 3 ≥ 3 and the claim predicts a fire — but the tick
emits no pulse, and three idle ticks from power-up fire no reset at all. -/
theorem c1_counterexample :
    pulseCount (run 3 (List.replicate 3 false) initState).2 = 0 ∧
    (run 3 (List.replicate 2 false) initState).1.timeout_counter = 2 ∧
    (tick 3 false (run 3 (List.replicate 2 false) initState).1).2 = [] := by
  decide

/-- Claim C1, amended. For every tick with no activity the engine increments
IdleTickCount and fires exactly when the pre-increment value is ≥ the
threshold `T` (equivalently, when the post-increment value exceeds it), so a
reset fires on every `T + 1`st idle tick: after `n` idle ticks from power-up
exactly `n / (T + 1)` resets have fired — with threshold 3 the first on
tick 4, then tick 8, tick 12, …. -/
theorem c1_amended_fire_every_threshold_plus_one (T n : Nat) (hT : T < UINT32_MOD) :
    (∀ s : WState, s.activity_flag = false →
      (pulseCount (tick T false s).2 = 1 ↔ T ≤ s.timeout_counter)) ∧
    pulseCount (run T (List.replicate n false) initState).2 = n / (T + 1) := by
  constructor
  · intro s hf
    constructor
    · intro h1
      by_contra hnot
      rw [tick_idle_eq T false s (by simp [hf]) (not_le.mp hnot)] at h1
      simp [pulseCount] at h1
    · intro hge
      rw [tick_fire_eq T false s (by simp [hf]) hge]
      exact pulseCount_pulse
  · have h := (idle_run T hT n initState rfl (Nat.zero_le T)).2.2
    rw [show initState.timeout_counter = 0 from rfl] at h
    simpa using h

/-- witness for C1 amended: with threshold 3, four idle ticks from power-up
fire exactly one reset. -/
theorem c1_amended_witness :
    pulseCount (run 3 (List.replicate 4 false) initState).2 = 1 :=
  ((c1_amended_fire_every_threshold_plus_one 3 4 (by decide)).2).trans (by decide)

/-- Claim C2 (confirmed). On every tick where ActivityFlag is true the engine
clears the flag, zeroes the idle counter, arms the activity indicator
(countdown set to `ACTIVITY_LED_MS / TICK_MS` and PB3 driven high), and the
tick emits no reset pulse — with no hypothesis on the counter, so activity
pre-empts the timeout even when the idle count is at or above the
threshold. -/
theorem c2_activity_preempts_timeout (T : Nat) (a : Bool) (s : WState)
    (h : s.activity_flag = true) :
    (engineStep T s).1.activity_flag = false ∧
    (engineStep T s).1.timeout_counter = 0 ∧
    (engineStep T s).1.activity_led_count = ACTIVITY_LED_TICKS ∧
    (engineStep T s).1.ddrb_actv = true ∧
    (engineStep T s).1.portb_actv = true ∧
    (engineStep T s).2 = [] ∧
    (tick T a s).2 = [] := by
  rw [engineStep_activity T s h]
  refine ⟨rfl, rfl, rfl, rfl, rfl, rfl, ?_⟩
  rw [tick_activity_eq T a s (by simp [h])]

/-- witness for C2: a state whose flag is set and whose counter 5 is already
past the threshold 3 still consumes the activity and fires nothing. -/
theorem c2_activity_preempts_timeout_witness :
    (engineStep 3
      { initState with activity_flag := true, timeout_counter := 5 }).1.timeout_counter = 0 ∧
    (tick 3 false
      { initState with activity_flag := true, timeout_counter := 5 }).2 = [] := by
  have h := c2_activity_preempts_timeout 3 false
    { initState with activity_flag := true, timeout_counter := 5 } rfl
  exact ⟨h.2.1, h.2.2.2.2.2.2⟩

/-- Claim C3 (confirmed). At every reachable state of the control loop, the
tick leaves IdleTickCount at zero exactly when it consumed an observed
activity (`a = true`: the merged flag is set, since the flag is always clear
at a reachable loop boundary) or completed a fired reset (`a = false` and the
counter had reached the threshold); every other step leaves it non-zero. -/
theorem c3_counter_zero_iff (T : Nat) (as : List Bool) (a : Bool)
    (hT : T < UINT32_MOD) :
    ((tick T a (run T as initState).1).1.timeout_counter = 0 ↔
      (a = true ∨
       (a = false ∧ T ≤ (run T as initState).1.timeout_counter))) := by
  have hf : (run T as initState).1.activity_flag = false := run_flag T as initState rfl
  have hle : (run T as initState).1.timeout_counter ≤ T :=
    run_counter_le T as initState (Nat.zero_le T)
  rcases a with _ | _
  · rcases le_or_lt T (run T as initState).1.timeout_counter with hge | hlt
    · rw [tick_fire_eq T false _ (by simp [hf]) hge, (indicatorPhase_frame _).2.1]
      simp [hge]
    · rw [tick_idle_eq T false _ (by simp [hf]) hlt, (indicatorPhase_frame _).2.1]
      have hmod : ((run T as initState).1.timeout_counter + 1) % UINT32_MOD
          = (run T as initState).1.timeout_counter + 1 :=
        Nat.mod_eq_of_lt (lt_of_le_of_lt (Nat.succ_le_of_lt hlt) hT)
      rw [hmod]
      simp [Nat.not_le.mpr hlt]
  · rw [tick_activity_eq T true _ (by simp), (indicatorPhase_frame _).2.1]
    simp

/-- witness for C3: with threshold 3, the first tick from power-up is neither
a consuming nor a firing tick, and indeed leaves the counter non-zero. -/
theorem c3_counter_zero_iff_witness :
    ((tick 3 false (run 3 [] initState).1).1.timeout_counter = 0 ↔
      (false = true ∨
       (false = false ∧ 3 ≤ (run 3 [] initState).1.timeout_counter))) :=
  c3_counter_zero_iff 3 [] false (by decide)

/-- Claim C4, counterexample. Scenario B of the claim: threshold 3, activity
on tick 2 — the claim says the fire occurs on tick 5, but the first five
ticks of that run emit no pulse. -/
theorem c4_counterexample :
    pulseCount (run 3 [false, true, false, false, false] initState).2 = 0 := by
  decide

/-- Claim C4, amended. After a reset fires, IdleTickCount restarts from zero
with the flag clear — engine-wise the initial configuration — and, absent
activity, the engine fires again after exactly `T + 1` more idle ticks (not
`T`: the post-increment comparison again lets the counter climb back to `T`
before firing). With threshold 3 and activity on tick 2 the counter sequence
is 1,0,1,2,3 over ticks 1-5 and the fire occurs on tick 6. -/
theorem c4_amended_refire_after_threshold_plus_one :
    (∀ (T : Nat) (s : WState), T < UINT32_MOD → s.activity_flag = false →
      T ≤ s.timeout_counter →
      (tick T false s).1.timeout_counter = 0 ∧
      (tick T false s).1.activity_flag = false ∧
      (∀ n : Nat, n ≤ T →
        pulseCount (run T (List.replicate n false) (tick T false s).1).2 = 0) ∧
      pulseCount (run T (List.replicate (T + 1) false) (tick T false s).1).2 = 1) ∧
    (run 3 [false] initState).1.timeout_counter = 1 ∧
    (run 3 [false, true] initState).1.timeout_counter = 0 ∧
    (run 3 [false, true, false] initState).1.timeout_counter = 1 ∧
    (run 3 [false, true, false, false] initState).1.timeout_counter = 2 ∧
    (run 3 [false, true, false, false, false] initState).1.timeout_counter = 3 ∧
    pulseCount (run 3 [false, true, false, false, false, false] initState).2 = 1 := by
  constructor
  · intro T s hT hf hge
    have hcnt : (tick T false s).1.timeout_counter = 0 := by
      rw [tick_fire_eq T false s (by simp [hf]) hge, (indicatorPhase_frame _).2.1]
    have hflag : (tick T false s).1.activity_flag = false := tick_flag T false s
    refine ⟨hcnt, hflag, ?_, ?_⟩
    · intro n hn
      have h := (idle_run T hT n (tick T false s).1 hflag
        (hcnt ▸ Nat.zero_le T)).2.2
      rw [h, hcnt]
      exact Nat.div_eq_of_lt (by omega)
    · have h := (idle_run T hT (T + 1) (tick T false s).1 hflag
        (hcnt ▸ Nat.zero_le T)).2.2
      rw [h, hcnt]
      simp
  · exact ⟨by decide, by decide, by decide, by decide, by decide, by decide⟩

/-- witness for C4 amended: from the state reached by three idle ticks at
threshold 3 (counter at the threshold), the firing tick zeroes the counter
and the next four idle ticks produce exactly one further pulse. -/
theorem c4_amended_witness :
    (tick 3 false (run 3 (List.replicate 3 false) initState).1).1.timeout_counter = 0 ∧
    pulseCount (run 3 (List.replicate 4 false)
      (tick 3 false (run 3 (List.replicate 3 false) initState).1).1).2 = 1 := by
  have h := c4_amended_refire_after_threshold_plus_one.1 3
    (run 3 (List.replicate 3 false) initState).1 (by decide) (by decide) (by decide)
  exact ⟨h.1, h.2.2.2⟩

/-- Claim C5 (code bug). The consumption of `activity_flag` at lines 123-125
is not an indivisible read-then-clear: no critical section protects the load
in `if (activity_flag)` from the store `activity_flag = false`. Failing
interleaving: the flag is already set when the tick reads it, and the
interrupt sets it again between the load and the store. The resulting state
is identical to the one where that interrupt never fired — the clear erases
the set, so no subsequent tick can observe it — whereas with the
spec-mandated atomic pair (interrupt deferred past the clear) the set
survives. An interrupt landing in the same window of a non-consuming tick is
not lost, confirming the loss is specific to the read-clear race. -/
theorem c5_nonatomic_consume_loses_event :
    engineStepRace TIMEOUT_TICKS true { initState with activity_flag := true }
      = engineStepRace TIMEOUT_TICKS false { initState with activity_flag := true } ∧
    (engineStepRace TIMEOUT_TICKS true
      { initState with activity_flag := true }).1.activity_flag = false ∧
    (engineStepRace TIMEOUT_TICKS true
      { initState with activity_flag := false }).1.activity_flag = true ∧
    (engineStepAtomicSpec TIMEOUT_TICKS true
      { initState with activity_flag := true }).1.activity_flag = true := by
  decide

/-- Claim C6 (confirmed). Over every input sequence, the reset-line event
trace is a sequence of complete non-overlapping pulses — each drive of the
line is immediately followed by the fixed 500 ms delay and the release back
to tri-state — and at every reachable loop boundary the line is not driven. -/
theorem c6_reset_line_pulses (T : Nat) (as : List Bool) :
    wellFormedPulses (run T as initState).2 = true ∧
    (run T as initState).1.ddrb_rsto = false :=
  ⟨run_wellFormed T as initState, run_rsto T as initState rfl⟩

/-- Claim C7 (confirmed). Arming an indicator sets its countdown to the
configured duration irrespective of the old count (re-arming restarts, never
extends); each tick decrements a positive count by one (a zero count is left
alone, expressed with truncated subtraction); and the output bit is turned
off exactly on the phase that takes the count from 1 to 0, being untouched
otherwise. -/
theorem c7_indicator_timer_contract (T : Nat) (s : WState) :
    (s.activity_flag = true →
      (engineStep T s).1.activity_led_count = ACTIVITY_LED_TICKS) ∧
    (s.activity_flag = false → T ≤ s.timeout_counter →
      (engineStep T s).1.timeout_led_count = TIMEOUT_LED_TICKS) ∧
    (timeoutLedPhase s).timeout_led_count = s.timeout_led_count - 1 ∧
    (s.timeout_led_count = 1 → (timeoutLedPhase s).portb_time = false) ∧
    (s.timeout_led_count ≠ 1 → (timeoutLedPhase s).portb_time = s.portb_time) ∧
    (activityLedPhase s).activity_led_count = s.activity_led_count - 1 ∧
    (s.activity_led_count = 1 → (activityLedPhase s).portb_actv = false) ∧
    (s.activity_led_count ≠ 1 → (activityLedPhase s).portb_actv = s.portb_actv) := by
  refine ⟨?_, ?_, timeoutLedPhase_count s, timeoutLedPhase_off s,
    timeoutLedPhase_keep s, activityLedPhase_count s, activityLedPhase_off s,
    activityLedPhase_keep s⟩
  · intro h
    rw [engineStep_activity T s h]
  · intro hf hge
    rw [engineStep_fire T s hf hge]

/-- witness for C7: re-arming at an old count of 7 restarts the activity
countdown at 2, and a count of 1 turns the LED off on this phase. -/
theorem c7_indicator_timer_contract_witness :
    (engineStep 3 { initState with activity_flag := true, activity_led_count := 7
      }).1.activity_led_count = ACTIVITY_LED_TICKS ∧
    (activityLedPhase { initState with activity_led_count := 1, portb_actv := true
      }).portb_actv = false := by
  have h1 := c7_indicator_timer_contract 3
    { initState with activity_flag := true, activity_led_count := 7 }
  have h2 := c7_indicator_timer_contract 3
    { initState with activity_led_count := 1, portb_actv := true }
  exact ⟨h1.1 rfl, h2.2.2.2.2.2.2.1 rfl⟩

/-- Claim C8 (confirmed, implicit). The decrement phase runs in the same loop
iteration as any arming, so an indicator armed to `N` ends that iteration at
`N - 1` and stays on for only `N - 1` further ticks: the activity indicator,
armed to `ACTIVITY_LED_MS / TICK_MS = 2`, ends its arming tick at count 1
with the LED on and is turned off on the very next tick; the timeout
indicator ends its firing tick at `TIMEOUT_LED_TICKS - 1 = 150`. -/
theorem c8_arm_and_decrement_share_iteration (T : Nat) (a : Bool) (s : WState)
    (hT : 0 < T) (h : (s.activity_flag || a) = true) :
    (tick T a s).1.activity_led_count = ACTIVITY_LED_TICKS - 1 ∧
    (tick T a s).1.portb_actv = true ∧
    (tick T false (tick T a s).1).1.activity_led_count = 0 ∧
    (tick T false (tick T a s).1).1.portb_actv = false ∧
    (∀ s2 : WState, s2.activity_flag = false → T ≤ s2.timeout_counter →
      (tick T false s2).1.timeout_led_count = TIMEOUT_LED_TICKS - 1) := by
  have hstep := tick_activity_eq T a s h
  have halc : (tick T a s).1.activity_led_count = ACTIVITY_LED_TICKS - 1 := by
    rw [hstep]
    unfold indicatorPhase
    rw [activityLedPhase_count, (timeoutLedPhase_frame _).2.2.1]
  have hpa : (tick T a s).1.portb_actv = true := by
    rw [hstep]
    unfold indicatorPhase
    rw [activityLedPhase_keep _
        (by rw [(timeoutLedPhase_frame _).2.2.1]; show ACTIVITY_LED_TICKS ≠ 1; decide),
      (timeoutLedPhase_frame _).2.2.2.1]
  have hflag : (tick T a s).1.activity_flag = false := tick_flag T a s
  have hcnt : (tick T a s).1.timeout_counter = 0 := by
    rw [hstep, (indicatorPhase_frame _).2.1]
  have hstep2 := tick_idle_eq T false (tick T a s).1 (by simp [hflag])
    (by rw [hcnt]; exact hT)
  refine ⟨halc, hpa, ?_, ?_, ?_⟩
  · rw [hstep2]
    unfold indicatorPhase
    rw [activityLedPhase_count, (timeoutLedPhase_frame _).2.2.1]
    simp [halc]
    decide
  · rw [hstep2]
    unfold indicatorPhase
    rw [activityLedPhase_off _ (by rw [(timeoutLedPhase_frame _).2.2.1]; simp [halc]; decide)]
  · intro s2 hf2 hge2
    rw [tick_fire_eq T false s2 (by simp [hf2]) hge2]
    unfold indicatorPhase
    rw [(activityLedPhase_frame _).2.2.1, timeoutLedPhase_count]

/-- witness for C8: with threshold 3, activity on the first tick leaves the
activity countdown at 1 with the LED on, and the LED is off after the next
tick. -/
theorem c8_arm_and_decrement_share_iteration_witness :
    (tick 3 true initState).1.activity_led_count = ACTIVITY_LED_TICKS - 1 ∧
    (tick 3 true initState).1.portb_actv = true ∧
    (tick 3 false (tick 3 true initState).1).1.portb_actv = false := by
  have h := c8_arm_and_decrement_share_iteration 3 true initState (by decide) (by decide)
  exact ⟨h.1, h.2.1, h.2.2.2.1⟩

/-- Claim C9 (confirmed). The indicator-timer update phase modifies only the
two indicator counts and their PORTB output bits — flag, idle counter and the
DDRB direction bits are untouched — and it runs on every iteration no matter
which branch the Timeout Engine took: after any tick, each indicator count is
one below its value at the end of the engine phase (truncated at zero). -/
theorem c9_indicator_update_frame (T : Nat) (a : Bool) (s : WState) :
    ((indicatorPhase s).activity_flag = s.activity_flag ∧
     (indicatorPhase s).timeout_counter = s.timeout_counter ∧
     (indicatorPhase s).ddrb_actv = s.ddrb_actv ∧
     (indicatorPhase s).ddrb_time = s.ddrb_time ∧
     (indicatorPhase s).ddrb_rsto = s.ddrb_rsto) ∧
    (tick T a s).1.timeout_led_count
      = (engineStep T
          { s with activity_flag := s.activity_flag || a }).1.timeout_led_count - 1 ∧
    (tick T a s).1.activity_led_count
      = (engineStep T
          { s with activity_flag := s.activity_flag || a }).1.activity_led_count - 1 := by
  refine ⟨indicatorPhase_frame s, ?_, ?_⟩
  · unfold tick indicatorPhase
    rw [(activityLedPhase_frame _).2.2.1, timeoutLedPhase_count]
  · unfold tick indicatorPhase
    rw [activityLedPhase_count, (timeoutLedPhase_frame _).2.2.1]

/-- Claim C10 (confirmed). `TIMEOUT_TICKS`, computed in `uint32_t` arithmetic
as the configured timeout duration divided by the tick period, equals
(3 * 60 * 1000) / 100 = 1800, is strictly positive, the intermediate products
fit in 32 bits (no overflow), and the division is exact (no truncation). -/
theorem c10_timeout_ticks_exact :
    TIMEOUT_TICKS = 1800 ∧
    0 < TIMEOUT_TICKS ∧
    TIMEOUT_TICKS = TIMEOUT_MINUTES * 60 * 1000 / TICK_MS ∧
    TIMEOUT_MINUTES * 60 * 1000 < UINT32_MOD ∧
    TIMEOUT_MINUTES * 60 * 1000 % TICK_MS = 0 := by
  decide

end Hwdog
